import Mathlib

/-
Verification development for the anat_seg repository.

The repository orchestrates external neuroimaging binaries; its own logic is
argument defaulting, command-line string construction, output-path naming and
sequencing.  We shallowly embed that logic: strings stay strings, paths are
strings, subprocess side effects are abstracted away (glob results and
path-existence become explicit parameters or state records), and fallible
code returns Option or Except.

Python string operations are re-implemented structurally (on List Char) so
that every definition kernel-evaluates on concrete inputs.
-/

set_option linter.unusedVariables false

/- ---------------------------------------------------------------------
String utilities (structural versions of the Python operations used).
--------------------------------------------------------------------- -/

/-- Lexicographic code-point order on character lists, as Python uses for
string comparison in list.sort(). -/
def lexLe : List Char → List Char → Bool
  | [], _ => true
  | _ :: _, [] => false
  | a :: as, b :: bs =>
    if a.toNat < b.toNat then true
    else if b.toNat < a.toNat then false
    else lexLe as bs

/-- Python string less-or-equal as a proposition over the embedded order. -/
def sLE (a b : String) : Prop := lexLe a.data b.data = true

instance : DecidableRel sLE := fun a b => inferInstanceAs (Decidable (_ = true))

/-- Boolean check that a list of strings is lexicographically sorted. -/
def sortedLexB : List String → Bool
  | [] => true
  | [_] => true
  | a :: b :: rest => lexLe a.data b.data && sortedLexB (b :: rest)

/-- Python str.endswith, evaluated structurally on the character lists. -/
def strEndsWith (s suf : String) : Bool := suf.data.isSuffixOf s.data

/-- Remove the last n characters of a string (used to strip a known suffix). -/
def dropChars (s : String) (n : Nat) : String :=
  String.mk (s.data.take (s.data.length - n))

/-- Boolean occurrence test for a character-list pattern inside a list. -/
def listContainsSub (pat : List Char) : List Char → Bool
  | [] => pat.isEmpty
  | c :: cs => pat.isPrefixOf (c :: cs) || listContainsSub pat cs

/-- Boolean substring test (needle occurs inside haystack). -/
def strContains (s pat : String) : Bool := listContainsSub pat.data s.data

/-- Intersection of two string lists by structural character equality. -/
def strListInter (xs ys : List String) : List String :=
  xs.filter (fun x => ys.any (fun y => x.data == y.data))

/-- Index of the first occurrence of a string in a list (length if absent). -/
def firstPos (x : String) : List String → Nat
  | [] => 0
  | y :: ys => if x.data = y.data then 0 else firstPos x ys + 1

/-- Model of os.path.join / WorkDir.join with a single component. -/
def pathJoin (d f : String) : String := d ++ "/" ++ f

/-- Modelled from the spec: the File/Path Guard's rm_ext output-prefix
function lives in the vendored commandio package, which is not under src/.
Spec section 4.1 describes it as a pure function computing the output prefix
by stripping the longest recognized compound suffix, trying a two-part
extension before a single-part one.  The recognized image suffixes used by
every caller in this repository are .nii.gz and .nii. -/
def rmExt (s : String) : String :=
  if strEndsWith s ".nii.gz" then dropChars s 7
  else if strEndsWith s ".nii" then dropChars s 4
  else s

/- ---------------------------------------------------------------------
CLI front-end (src/anat_seg.py).
--------------------------------------------------------------------- -/

/-- Stand-in for the argparse usage-plus-error message printed on stderr when
a required argument is missing; its exact wording is immaterial, only that it
is distinct from the full help text. -/
def argparseUsageText : String :=
  "usage: anat_seg -i IMAGE -o DIR : error: required arguments missing"

/-- Stand-in for the full parser help text printed by print_help. -/
def cliHelpText : String := "anat_seg full help text"

/-- Model of argparse's required-argument check for arg_parser in
src/anat_seg.py: the image flag and the output-directory flag are declared
with required=True, so parse_args succeeds only when both are present.
Python's argparse aborts with the usage message on stderr and exit status 2
otherwise (documented behaviour of ArgumentParser.error). -/
def requiredArgsGiven (argv : List String) : Bool :=
  (argv.contains "-i" || argv.contains "--image") &&
  (argv.contains "-o" || argv.contains "--output-dir")

/-- Outcome of the CLI entry point: an exit with a status code and the text
written to stderr, or a normal dispatch into the pipeline. -/
inductive CliOutcome where
  | exit (code : Nat) (stderrText : String)
  | run (argv : List String)
deriving DecidableEq

/-- Boolean discriminator for the dead help branch of proc (exit status 1
with the help text on stderr). -/
def isHelpExitOne : CliOutcome → Bool
  | .exit 1 t => t.data == cliHelpText.data
  | _ => false

/-- Embedding of proc in src/anat_seg.py, lines 23-31: arg_parser() (hence
parse_args) runs first; only if parsing succeeded does the len(sys.argv) == 1
check run, printing help to stderr and exiting with status 1.  argv here is
the list of user-supplied arguments (sys.argv without the program name), so
len(sys.argv) == 1 corresponds to argv = []. -/
def procEntry (argv : List String) : CliOutcome :=
  if requiredArgsGiven argv = false then .exit 2 argparseUsageText
  else if argv.length == 0 then .exit 1 cliHelpText
  else .run argv

/-- Embedding of the default-derivation block of proc (src/anat_seg.py,
lines 33-66): a flag left unset parses to None; with --neonate the None
values become 0.3 / 2 / 5, without it 0.5 / 1 / 3; explicitly given values
are kept.  The fractional intensity is modelled as a rational since only the
defaulting logic, not float arithmetic, is at stake. -/
def procDefaults (neonate : Bool) (fracInt : Option ℚ)
    (intype : Option ℤ) (classes : Option ℤ) : ℚ × ℤ × ℤ :=
  if neonate then
    (fracInt.getD (3/10), intype.getD 2, classes.getD 5)
  else
    (fracInt.getD (1/2), intype.getD 1, classes.getD 3)

/- ---------------------------------------------------------------------
N4 bias-correction executable probing (src/anat_seg/biascorr.py, 150-163).
--------------------------------------------------------------------- -/

/-- Embedding of the N4 executable probe in _N4_biascorr: check_dependency
with raise_exc=False is a non-raising boolean probe, modelled by the
resolves predicate (which executable names are on the search path).
The source tries N4BiasFieldCorrection, then N4, and otherwise raises
DependencyError with a message naming the first candidate. -/
def n4Select (resolves : String → Bool) : Except String String :=
  if resolves "N4BiasFieldCorrection" then .ok "N4BiasFieldCorrection"
  else if resolves "N4" then .ok "N4"
  else .error ("N4BiasFieldCorrection" ++ " is not installed or in system PATH variable.")

/-- Boolean success discriminator for Except results. -/
def exceptOk {ε α : Type} : Except ε α → Bool
  | .ok _ => true
  | .error _ => false

/- ---------------------------------------------------------------------
Tissue-classification wrapper fast (src/anat_seg/fsl/fast.py, 100-105).
--------------------------------------------------------------------- -/

/-- Embedding of the output-discovery tail of fast: the file system is
abstracted by passing the two glob result lists as parameters (matches of
out_pve_star and of out_mixel_star under the output prefix).  The source
sorts the pve matches in place (Python list.sort, lexicographic on code
points, modelled by insertion sort under sLE) and then appends a single
element: the space-join of the mixel matches. -/
def fastOutputs (pveMatches mixelMatches : List String) : List String :=
  List.insertionSort sLE pveMatches ++ [String.intercalate " " mixelMatches]

/- ---------------------------------------------------------------------
fslmaths builder (src/anat_seg/fsl/fslmaths.py).
--------------------------------------------------------------------- -/

/-- Embedding of the fslmaths constructor with dt=None: the accumulated
command string starts as the f-string of the binary name, the empty
sub-command and the (absolute) input image path; paths are assumed already
absolute so abspath is the identity here. -/
def fslmathsInit (image : String) : String := "fslmaths  " ++ image

/-- Embedding of fslmaths.fmean with repeat=1. -/
def fmeanOp (cmd : String) : String := cmd ++ " -fmean"

/-- Embedding of fslmaths.fmedian with repeat=1. -/
def fmedianOp (cmd : String) : String := cmd ++ " -fmedian"

/-- Embedding of fslmaths.add with an image operand. -/
def addOp (cmd img : String) : String := cmd ++ " -add " ++ img

/-- Embedding of fslmaths.run with odt=None: returns the output path (the
Python method returns out) together with the final command string, which
appends the output path and the empty odt sub-command. -/
def runOp (cmd out : String) : String × String := (out, cmd ++ " " ++ out ++ " ")

/- ---------------------------------------------------------------------
Neonatal post-processing (src/anat_seg/seg.py, 309-345).
--------------------------------------------------------------------- -/

/-- Result record of the neonatal post-processing step: the four returned
paths, plus the source of the CSF rename and the two fslmaths command lines,
so the applied operations are inspectable. -/
structure NeoPost where
  csf : String
  gm : String
  wm : String
  mixeltype : String
  moveSrc : String
  gmCmd : String
  wmCmd : String
deriving DecidableEq

/-- Embedding of the rename-and-construct block of _neo_seg: the classifier
output list is destructured as pve0, pve1, pve2, pve3, _, mixel (a Python
unpacking that raises unless the list has exactly six elements, modelled by
returning none otherwise).  CSF is pve0 moved to a fixed basename, GM is
fslmaths(pve3).fmean() run to a fixed basename, WM is
fslmaths(pve1).add(pve2).fmedian() run to a fixed basename, and the function
returns (csf, gm, wm, mixel). -/
def neoPostproc (outdir : String) (segList : List String) : Option NeoPost :=
  match segList with
  | [pve0, pve1, pve2, pve3, _, mixel] =>
    let csf := pathJoin outdir "fast_segmentation_space-native_tissue-csf.nii.gz"
    let gmOut := pathJoin outdir "fast_segmentation_space-native_tissue-gm.nii.gz"
    let wmOut := pathJoin outdir "fast_segmentation_space-native_tissue-wm.nii.gz"
    let gmRun := runOp (fmeanOp (fslmathsInit pve3)) gmOut
    let wmRun := runOp (fmedianOp (addOp (fslmathsInit pve1) pve2)) wmOut
    some { csf := csf, gm := gmRun.1, wm := wmRun.1, mixeltype := mixel,
           moveSrc := pve0, gmCmd := gmRun.2, wmCmd := wmRun.2 }
  | _ => none

/- ---------------------------------------------------------------------
Linear registration wrapper flirt (src/anat_seg/fsl/flirt.py).
--------------------------------------------------------------------- -/

/-- The omat parameter of flirt may be None, a boolean or a string, as in
the Python signature. -/
inductive PyOmat where
  | pynone
  | pybool (b : Bool)
  | pystr (s : String)
deriving DecidableEq

/-- Python truthiness of the omat argument (bool(omat)). -/
def pyOmatTruthy : PyOmat → Bool
  | .pynone => false
  | .pybool b => b
  | .pystr s => !s.data.isEmpty

/-- Python truthiness of the optional out argument. -/
def outTruthy : Option String → Bool
  | none => false
  | some s => !s.data.isEmpty

/-- Result of the flirt wrapper: the returned (out, omat) pair and the
constructed command line. -/
structure FlirtResult where
  out : Option String
  omat : PyOmat
  cmd : String
deriving DecidableEq

/-- Leading part of the flirt command line (everything before the optional
sub-command). -/
def flirtBaseCmd (image ref : String) (dof : Nat) : String :=
  "flirt -in " ++ image ++ " -ref " ++ ref ++ " -dof " ++ toString dof ++ " -v "

/-- Embedding of flirt (src/anat_seg/fsl/flirt.py, 49-76).  The branches
mirror the source: if out is given, the sub-command carries -out and the
stripped prefix is remembered; if bool(omat) and out is truthy, omat becomes
prefix plus .mat and is emitted; elif bool(omat), omat becomes the
dof-derived default name but nothing is added to the command; elif omat is
not None it is a caller-supplied path name emitted after re-stripping.  A
falsy non-None non-string omat (the boolean False) would crash the Python
File constructor, modelled as none. -/
def flirt (image ref : String) (out : Option String) (omat : PyOmat)
    (dof : Nat) : Option FlirtResult :=
  let sub1 : String := match out with | some o => "-out " ++ o | none => ""
  let outPfx : String := match out with | some o => rmExt o | none => ""
  if pyOmatTruthy omat && outTruthy out then
    let m := outPfx ++ ".mat"
    some { out := out, omat := .pystr m,
           cmd := flirtBaseCmd image ref dof ++ (sub1 ++ " -omat " ++ m) }
  else if pyOmatTruthy omat then
    some { out := out, omat := .pystr ("xfm-linear_dof-" ++ toString dof ++ ".mat"),
           cmd := flirtBaseCmd image ref dof ++ sub1 }
  else
    match omat with
    | .pynone => some { out := out, omat := .pynone,
                        cmd := flirtBaseCmd image ref dof ++ sub1 }
    | .pystr s => some { out := out, omat := .pystr s,
                         cmd := flirtBaseCmd image ref dof ++
                                (sub1 ++ " -omat " ++ rmExt s ++ ".mat") }
    | .pybool _ => none

/- ---------------------------------------------------------------------
Brain extraction bet and non-linear registration fnirt (path contracts).
--------------------------------------------------------------------- -/

/-- Embedding of the output-path contract of bet (src/anat_seg/fsl/bet.py):
the prefix is the output name stripped of a recognized image suffix, the
skull-stripped image is prefix followed by the compound suffix, the mask (if
requested) is prefix followed by the mask suffix. -/
def bet (out : String) (mask : Bool) : String × Option String :=
  let pfx := if strEndsWith out ".nii.gz" || strEndsWith out ".nii"
             then rmExt out else out
  (pfx ++ ".nii.gz", if mask then some (pfx ++ "_mask.nii.gz") else none)

/-- Embedding of the output-path contract of fnirt
(src/anat_seg/fsl/fnirt.py): each selected output gets a fixed-suffix name
derived from the stripped output prefix; unselected outputs are None. -/
def fnirt (out : String) (iout fout cout : Bool) :
    Option String × Option String × Option String :=
  let pfx := if strEndsWith out ".nii.gz" || strEndsWith out ".nii"
             then rmExt out else out
  ( if iout then some (pfx ++ ".nii.gz") else none,
    if fout then some (pfx ++ "_field.nii.gz") else none,
    if cout then some (pfx ++ "_field_coeff.nii.gz") else none )

/- ---------------------------------------------------------------------
UNC neonatal atlas loader (src/anat_seg/utils/util.py, 53-73).
--------------------------------------------------------------------- -/

/-- Placeholder for the package-level ATLASDIR constant (defined in the
package init file, outside src/); its concrete value is immaterial to the
claims, only the fixed relative layout below it matters. -/
def atlasRoot : String := "ATLASDIR"

/-- Directory of the unpacked UNC atlas bundle. -/
def uncDir : String := atlasRoot ++ "/UNC_infant_atlas_2020"

/-- Path of a template file inside the atlas bundle. -/
def uncJoin (name : String) : String := uncDir ++ "/atlas/templates/" ++ name

/-- Whole-head template path. -/
def uncTemplate : String := uncJoin "infant-neo-withSkull.nii.gz"

/-- Brain (with cerebellum) template path. -/
def uncTemplateBrain : String := uncJoin "infant-neo-withCerebellum.nii.gz"

/-- Atlas-space gray-matter map path. -/
def uncGm : String := uncJoin "infant-neo-seg-gm.nii.gz"

/-- Atlas-space white-matter map path. -/
def uncWm : String := uncJoin "infant-neo-seg-wm.nii.gz"

/-- Atlas-space CSF map path. -/
def uncCsf : String := uncJoin "infant-neo-seg-csf.nii.gz"

/-- Five template paths in the order returned by the loader:
template, template brain, gm, wm, csf. -/
def AtlasPaths : Type := String × String × String × String × String

/-- The tuple the loader returns when the bundle directory exists. -/
def uncPaths : AtlasPaths :=
  (uncTemplate, uncTemplateBrain, uncGm, uncWm, uncCsf)

/-- Abstract file-system state relevant to the atlas loader: whether the
bundle directory exists and whether the archive is present (so that the tar
subprocess run by extract succeeds). -/
structure AtlasState where
  dirPresent : Bool
  archivePresent : Bool
deriving DecidableEq

/-- Embedding of extract applied to the UNC archive: the archive name ends
in .tar.gz so a tar command is built and run; Command.run propagates a fatal
error when the child exits non-zero, which tar does when the archive is
absent.  On success the bundle directory exists afterwards. -/
def extractUNC (s : AtlasState) : Except String AtlasState :=
  if s.archivePresent then .ok { s with dirPresent := true }
  else .error "tar -xvzf UNC.tar.gz exited non-zero"

/-- Fuel-indexed embedding of get_UNC_neonate_atlas: if the bundle directory
exists the five paths are returned; otherwise the archive is extracted and
the function calls itself, but the source discards the recursive result and
falls off the end, returning Python's implicit None (modelled as none in the
pair).  The recursion depth is at most one because extraction establishes
the directory, so fuel two is exact. -/
def getUNCAtlasFuel : Nat → AtlasState → Except String (AtlasState × Option AtlasPaths)
  | 0, _ => .error "recursion limit"
  | fuel + 1, s =>
    if s.dirPresent then .ok (s, some uncPaths)
    else
      match extractUNC s with
      | .error e => .error e
      | .ok s2 =>
        match getUNCAtlasFuel fuel s2 with
        | .error e => .error e
        | .ok _ => .ok (s2, none)

/-- The atlas loader at its actual recursion bound. -/
def getUNCAtlas (s : AtlasState) : Except String (AtlasState × Option AtlasPaths) :=
  getUNCAtlasFuel 2 s

/-- Boolean discriminator: does the loader yield the template paths from
this state? -/
def loaderYieldsPaths (s : AtlasState) : Bool :=
  match getUNCAtlas s with
  | .ok (_, some _) => true
  | _ => false

/- ---------------------------------------------------------------------
Neonatal pipeline _neo_seg (src/anat_seg/seg.py, 164-345).
--------------------------------------------------------------------- -/

/-- Ordered names of the steps of _neo_seg that invoke external tools or
load the atlas, with the bias-correction step dropped when nobias is set.
The applywarp loop iterates the tissues dict in insertion order gm, wm, csf.
The bias-correction step itself runs external binaries (FSL fast, or bet
plus N4). -/
def neoSegEvents (nobias : Bool) : List String :=
  (if nobias then [] else ["biascorr"]) ++
  ["bet", "atlas_load", "flirt", "fnirt", "convertwarp",
   "applywarp_gm", "applywarp_wm", "applywarp_csf", "fast", "postproc"]

/-- Path-level plan of one _neo_seg run (atlas bundle present): every field
is the path the corresponding source variable holds. -/
structure NeoSegPlan where
  restore : String
  brain : String
  linXfmMat : String
  warpField : String
  warpedGm : String
  warpedWm : String
  warpedCsf : String
  fastPriors : List String
deriving DecidableEq

/-- Embedding of the path computations of _neo_seg up to the fast call.
restore comes from biascorr (or is the input when nobias), brain from bet,
the linear matrix from the embedded flirt call (omat=True, dof=12), the warp
field from the embedded fnirt call (fout), the warped tissue maps are the
applywarp outputs at the xfm names of the tissues dict.  fastPriors is the
priors list the source passes to fast: it reads the template entries of the
tissues dict, that is the atlas-space maps in the order csf, gm, wm. -/
def neoSeg (image outdir : String) (nobias : Bool) : NeoSegPlan :=
  let restore := if nobias then image
                 else pathJoin outdir "anat" ++ "_restore.nii.gz"
  let brain := (bet (pathJoin outdir "anat_brain.nii.gz") true).1
  let fl := flirt uncTemplateBrain brain
              (some (pathJoin outdir "template-to-native_space-native_xfm-linear.nii.gz"))
              (.pybool true) 12
  let linMat := match fl with
                | some r => match r.omat with | .pystr m => m | _ => ""
                | none => ""
  let fn := fnirt (pathJoin outdir "template-to-native_space-native_xfm-nonlinear.nii.gz")
              true true true
  let warpField := (fn.2.1).getD ""
  let wgm := pathJoin outdir "template-to-native_space-native_xfm-nonlinear_tissue-gm.nii.gz"
  let wwm := pathJoin outdir "template-to-native_space-native_xfm-nonlinear_tissue-wm.nii.gz"
  let wcsf := pathJoin outdir "template-to-native_space-native_xfm-nonlinear_tissue-csf.nii.gz"
  { restore := restore, brain := brain, linXfmMat := linMat,
    warpField := warpField, warpedGm := wgm, warpedWm := wwm,
    warpedCsf := wcsf, fastPriors := [uncCsf, uncGm, uncWm] }

/- ---------------------------------------------------------------------
Theorems.
--------------------------------------------------------------------- -/

/-- Claim C3: with the neonate flag and no explicit values, the pipeline
receives fractional intensity 0.3, modality 2 and class count 5; without the
flag the unset values default to 0.5, 1 and 3; an explicitly given value is
kept regardless of the neonate flag. -/
theorem cli_default_derivation :
    procDefaults true none none none = (3/10, 2, 5)
  ∧ procDefaults false none none none = (1/2, 1, 3)
  ∧ (∀ (n : Bool) (f : ℚ) (t c : Option ℤ), (procDefaults n (some f) t c).1 = f)
  ∧ (∀ (n : Bool) (f : Option ℚ) (t : ℤ) (c : Option ℤ),
       (procDefaults n f (some t) c).2.1 = t)
  ∧ (∀ (n : Bool) (f : Option ℚ) (t : Option ℤ) (c : ℤ),
       (procDefaults n f t (some c)).2.2 = c) := by
  refine ⟨rfl, rfl, ?_, ?_, ?_⟩ <;> intro n f t c <;> cases n <;> rfl

/-- Claim C4 (code bug): with zero command-line arguments the program does
not reach the help branch of proc: parse_args aborts first because the image
and output-directory flags are required, printing the usage message to
stderr and exiting with status 2.  The help branch (exit status 1 with the
help text) is unreachable for every argument list, since reaching it
requires a successful parse, which requires a non-empty argument list. -/
theorem cli_zero_args_argparse_exit :
    procEntry [] = CliOutcome.exit 2 argparseUsageText
  ∧ isHelpExitOne (procEntry []) = false
  ∧ (∀ argv : List String, isHelpExitOne (procEntry argv) = false) := by
  refine ⟨rfl, by decide, ?_⟩
  intro argv
  cases h : requiredArgsGiven argv with
  | false => simp [procEntry, h, isHelpExitOne]
  | true =>
    cases argv with
    | nil => simp [requiredArgsGiven] at h
    | cons a as => simp [procEntry, h, isHelpExitOne]

/-- Claim C5: the N4 path probes N4BiasFieldCorrection then N4 in order with
non-raising checks, selects the first that resolves, and raises a
DependencyError naming the missing executable exactly when neither name
resolves. -/
theorem n4_probe_order_and_error :
    (∀ rs : String → Bool, rs "N4BiasFieldCorrection" = true →
       n4Select rs = .ok "N4BiasFieldCorrection")
  ∧ (∀ rs : String → Bool, rs "N4BiasFieldCorrection" = false → rs "N4" = true →
       n4Select rs = .ok "N4")
  ∧ (∀ rs : String → Bool,
       exceptOk (n4Select rs) = (rs "N4BiasFieldCorrection" || rs "N4"))
  ∧ (∀ rs : String → Bool, rs "N4BiasFieldCorrection" = false → rs "N4" = false →
       n4Select rs =
         .error "N4BiasFieldCorrection is not installed or in system PATH variable.") := by
  refine ⟨?_, ?_, ?_, ?_⟩
  · intro rs h; simp [n4Select, h]
  · intro rs h1 h2; simp [n4Select, h1, h2]
  · intro rs
    cases h1 : rs "N4BiasFieldCorrection" <;> cases h2 : rs "N4" <;>
      simp [n4Select, h1, h2, exceptOk]
  · intro rs h1 h2; simp [n4Select, h1, h2]

/-- Witness for C5: with nothing on the search path the probe yields the
DependencyError naming N4BiasFieldCorrection. -/
theorem n4_probe_order_and_error_witness :
    n4Select (fun _ => false) =
      .error "N4BiasFieldCorrection is not installed or in system PATH variable." :=
  n4_probe_order_and_error.2.2.2 (fun _ => false) rfl rfl

/-- Claim C2: on the classifier's six-element output list, the neonatal
post-processing renames element 0 to the fixed CSF basename, mean-filters
element 3 to the fixed GM basename, adds elements 1 and 2 and
median-filters to the fixed WM basename, returns element 5 as the
mixel-type path, ignores element 4 (the result does not depend on it), and
the returned tuple is in the order CSF, GM, WM, mixel-type. -/
theorem neo_postproc_positional_mapping :
  ∀ outdir a b c d x m : String,
    (neoPostproc outdir [a, b, c, d, x, m] =
      some { csf := pathJoin outdir "fast_segmentation_space-native_tissue-csf.nii.gz",
             gm := pathJoin outdir "fast_segmentation_space-native_tissue-gm.nii.gz",
             wm := pathJoin outdir "fast_segmentation_space-native_tissue-wm.nii.gz",
             mixeltype := m,
             moveSrc := a,
             gmCmd := "fslmaths  " ++ d ++ " -fmean" ++ " " ++
                      pathJoin outdir "fast_segmentation_space-native_tissue-gm.nii.gz" ++ " ",
             wmCmd := "fslmaths  " ++ b ++ " -add " ++ c ++ " -fmedian" ++ " " ++
                      pathJoin outdir "fast_segmentation_space-native_tissue-wm.nii.gz" ++ " " })
  ∧ (∀ x' : String,
       neoPostproc outdir [a, b, c, d, x, m] = neoPostproc outdir [a, b, c, d, x', m]) := by
  intro outdir a b c d x m
  exact ⟨rfl, fun x' => rfl⟩

/-- Counterexample for C9: the spec-modelled output-prefix stripping is not
idempotent on every path; stripping the path sub-01.nii.nii once yields
sub-01.nii, and stripping again yields the different string sub-01. -/
theorem rm_ext_idem_counterexample :
    rmExt "sub-01.nii.nii" = "sub-01.nii"
  ∧ rmExt (rmExt "sub-01.nii.nii") = "sub-01"
  ∧ ("sub-01".data == "sub-01.nii".data) = false := by decide

/-- Claim C9 as amended: output-prefix stripping is idempotent for every
path whose once-stripped result does not itself end in a recognized image
suffix; this covers every path ending in a single recognized compound
suffix, such as any name ending in .nii.gz with no second image suffix
before it. -/
theorem rm_ext_idem_amended :
    ∀ s : String, strEndsWith (rmExt s) ".nii.gz" = false →
      strEndsWith (rmExt s) ".nii" = false →
      rmExt (rmExt s) = rmExt s := by
  intro s h1 h2
  have hdef : rmExt (rmExt s) =
      if strEndsWith (rmExt s) ".nii.gz" then dropChars (rmExt s) 7
      else if strEndsWith (rmExt s) ".nii" then dropChars (rmExt s) 4
      else rmExt s := rfl
  rw [hdef, h1, h2]
  simp

/-- Witness for C9 as amended: stripping anat_brain.nii.gz twice equals
stripping it once. -/
theorem rm_ext_idem_amended_witness :
    rmExt (rmExt "anat_brain.nii.gz") = rmExt "anat_brain.nii.gz" :=
  rm_ext_idem_amended "anat_brain.nii.gz" (by decide) (by decide)

/-- Helper: the neonatal post-processing destructuring fails (returns none)
on any list whose length is not six. -/
theorem neoPostproc_none_of_length_ne (outdir : String) :
    ∀ l : List String, l.length ≠ 6 → neoPostproc outdir l = none := by
  intro l h
  rcases l with _ | ⟨a, _ | ⟨b, _ | ⟨c, _ | ⟨d, _ | ⟨e, _ | ⟨f, _ | ⟨g, t⟩⟩⟩⟩⟩⟩⟩
  · rfl
  · rfl
  · rfl
  · rfl
  · rfl
  · rfl
  · exact absurd rfl h
  · rfl

/-- Claim C10: the list returned by the classification wrapper always has
length equal to the number of pve glob matches plus one, its trailing
element is the space-join of the mixel glob matches (the empty string when
there are none), and whenever the pve match count differs from five the
neonatal post-processing fails at the six-way destructuring before
producing any final tissue map. -/
theorem fast_output_arity_safety :
    (∀ pveMatches mixelMatches : List String,
       (fastOutputs pveMatches mixelMatches).length = pveMatches.length + 1)
  ∧ (∀ pveMatches mixelMatches : List String,
       (fastOutputs pveMatches mixelMatches).getLast? =
         some (String.intercalate " " mixelMatches))
  ∧ (∀ (outdir : String) (pveMatches mixelMatches : List String),
       pveMatches.length ≠ 5 →
       neoPostproc outdir (fastOutputs pveMatches mixelMatches) = none) := by
  refine ⟨?_, ?_, ?_⟩
  · intro pve mixel
    simp [fastOutputs, List.length_insertionSort]
  · intro pve mixel
    simp [fastOutputs, List.getLast?_concat]
  · intro outdir pve mixel h
    apply neoPostproc_none_of_length_ne
    simp [fastOutputs, List.length_insertionSort]
    omega

/-- Witness for C10: a run that yields four pve files and no mixel file
makes the neonatal post-processing fail before producing any map. -/
theorem fast_output_arity_safety_witness :
    neoPostproc "out" (fastOutputs ["pa", "pb", "pc", "pd"] []) = none :=
  fast_output_arity_safety.2.2 "out" ["pa", "pb", "pc", "pd"] [] (by decide)

/-- Helper: the embedded lexicographic order is total. -/
theorem lexLe_total : ∀ as bs : List Char, lexLe as bs = true ∨ lexLe bs as = true := by
  intro as
  induction as with
  | nil => intro bs; left; rfl
  | cons a as ih =>
    intro bs
    cases bs with
    | nil => right; rfl
    | cons b bs =>
      by_cases hab : a.toNat < b.toNat
      · left; simp [lexLe, hab]
      · by_cases hba : b.toNat < a.toNat
        · right; simp [lexLe, hba]
        · have h1 : lexLe (a :: as) (b :: bs) = lexLe as bs := by
            simp [lexLe, hab, hba]
          have h2 : lexLe (b :: bs) (a :: as) = lexLe bs as := by
            simp [lexLe, hab, hba]
          rw [h1, h2]
          exact ih bs

/-- Helper: the embedded lexicographic order is transitive. -/
theorem lexLe_trans : ∀ as bs cs : List Char,
    lexLe as bs = true → lexLe bs cs = true → lexLe as cs = true := by
  intro as
  induction as with
  | nil => intro bs cs h1 h2; rfl
  | cons a as ih =>
    intro bs cs h1 h2
    cases bs with
    | nil => simp [lexLe] at h1
    | cons b bs =>
      cases cs with
      | nil => simp [lexLe] at h2
      | cons c cs =>
        by_cases hab : a.toNat < b.toNat
        · by_cases hbc : b.toNat < c.toNat
          · have hac : a.toNat < c.toNat := by omega
            simp [lexLe, hac]
          · by_cases hcb : c.toNat < b.toNat
            · simp [lexLe, hbc, hcb] at h2
            · have hac : a.toNat < c.toNat := by omega
              simp [lexLe, hac]
        · by_cases hba : b.toNat < a.toNat
          · simp [lexLe, hab, hba] at h1
          · have h1x : lexLe as bs = true := by
              simpa [lexLe, hab, hba] using h1
            by_cases hbc : b.toNat < c.toNat
            · have hac : a.toNat < c.toNat := by omega
              simp [lexLe, hac]
            · by_cases hcb : c.toNat < b.toNat
              · simp [lexLe, hbc, hcb] at h2
              · have h2x : lexLe bs cs = true := by
                  simpa [lexLe, hbc, hcb] using h2
                have hac : ¬ a.toNat < c.toNat := by omega
                have hca : ¬ c.toNat < a.toNat := by omega
                simpa [lexLe, hac, hca] using ih bs cs h1x h2x

/-- Counterexample for C7: the wrapper's returned list is not sorted
lexicographically as a whole; on a run with two pve matches and one mixel
match the mixel path sorts before the pve paths yet is appended last. -/
theorem fast_outputs_sorted_counterexample :
    fastOutputs ["fast_segmentation_pve_1.nii.gz", "fast_segmentation_pve_0.nii.gz"]
        ["fast_segmentation_mixeltype.nii.gz"] =
      ["fast_segmentation_pve_0.nii.gz", "fast_segmentation_pve_1.nii.gz",
       "fast_segmentation_mixeltype.nii.gz"]
  ∧ sortedLexB ["fast_segmentation_pve_0.nii.gz", "fast_segmentation_pve_1.nii.gz",
       "fast_segmentation_mixeltype.nii.gz"] = false := by decide

/-- Claim C7 as amended: after the subprocess completes the wrapper globs
the pve and mixel patterns; the returned list is the lexicographically
sorted pve matches followed by exactly one trailing element, the space-join
of the mixel matches; the combined list itself is not re-sorted. -/
theorem fast_outputs_shape_amended :
    ∀ pveMatches mixelMatches : List String,
      ∃ sortedPve : List String,
        fastOutputs pveMatches mixelMatches =
          sortedPve ++ [String.intercalate " " mixelMatches]
        ∧ sortedPve.Perm pveMatches
        ∧ List.Sorted sLE sortedPve := by
  intro pve mixel
  haveI : IsTotal String sLE := ⟨fun a b => lexLe_total a.data b.data⟩
  haveI : IsTrans String sLE := ⟨fun a b c h1 h2 => lexLe_trans a.data b.data c.data h1 h2⟩
  exact ⟨List.insertionSort sLE pve, rfl, List.perm_insertionSort sLE pve,
         List.sorted_insertionSort sLE pve⟩

/-- Counterexample for C8: requesting the matrix with omat=True and no
output image yields the dof-derived default name but the command line does
not emit -omat at all; requesting it with an output image yields the
stripped prefix plus .mat, in which the degrees-of-freedom value 12 does
not occur. -/
theorem flirt_omat_claim_counterexample :
    (flirt "infant-neo-withCerebellum.nii.gz" "anat_brain.nii.gz" none
        (.pybool true) 12).map (fun r => (r.omat, strContains r.cmd "-omat")) =
      some (.pystr "xfm-linear_dof-12.mat", false)
  ∧ (flirt "t1.nii.gz" "standard.nii.gz" (some "reg.nii.gz")
        (.pybool true) 12).map (fun r => r.omat) = some (.pystr "reg.mat")
  ∧ strContains "reg.mat" "12" = false := by decide

/-- Claim C8 as amended: when omat is the boolean True and a non-empty
output image name is given, the returned matrix path defaults to the
stripped output prefix plus .mat (the degrees-of-freedom value does not
enter the name) and the command line emits -omat at that path; when omat is
True and no output image is given, the returned path is the dof-derived
default name and the command line receives no -omat option (the sub-command
stays empty). -/
theorem flirt_omat_default_amended :
    (∀ (image ref o : String) (dof : Nat), o.data.isEmpty = false →
       flirt image ref (some o) (.pybool true) dof =
         some { out := some o, omat := .pystr (rmExt o ++ ".mat"),
                cmd := flirtBaseCmd image ref dof ++
                       ("-out " ++ o ++ " -omat " ++ (rmExt o ++ ".mat")) })
  ∧ (∀ (image ref : String) (dof : Nat),
       flirt image ref none (.pybool true) dof =
         some { out := none,
                omat := .pystr ("xfm-linear_dof-" ++ toString dof ++ ".mat"),
                cmd := flirtBaseCmd image ref dof ++ "" }) := by
  constructor
  · intro image ref o dof h
    have ht : outTruthy (some o) = true := by simp [outTruthy, h]
    simp [flirt, pyOmatTruthy, ht]
  · intro image ref dof
    simp [flirt, pyOmatTruthy, outTruthy]

/-- Witness for C8 as amended: a concrete call with an output image named
reg2.nii.gz. -/
theorem flirt_omat_default_amended_witness :
    flirt "t1.nii.gz" "mni.nii.gz" (some "reg2.nii.gz") (.pybool true) 6 =
      some { out := some "reg2.nii.gz",
             omat := .pystr (rmExt "reg2.nii.gz" ++ ".mat"),
             cmd := flirtBaseCmd "t1.nii.gz" "mni.nii.gz" 6 ++
                    ("-out " ++ "reg2.nii.gz" ++ " -omat " ++
                     (rmExt "reg2.nii.gz" ++ ".mat")) } :=
  flirt_omat_default_amended.1 "t1.nii.gz" "mni.nii.gz" "reg2.nii.gz" 6 (by decide)

/-- Claim C1 (code bug): in the neonatal pipeline the priors handed to the
tissue classifier are the unwarped atlas-space template maps (the template
entries of the tissues dict, in the order CSF, GM, WM), while the warped
native-space files produced by applywarp (the xfm entries) are disjoint
from that priors list and go unused. -/
theorem neo_seg_priors_are_unwarped_templates :
    (neoSeg "T2w.nii.gz" "out" false).fastPriors = [uncCsf, uncGm, uncWm]
  ∧ [uncCsf, uncGm, uncWm] =
      ["ATLASDIR/UNC_infant_atlas_2020/atlas/templates/infant-neo-seg-csf.nii.gz",
       "ATLASDIR/UNC_infant_atlas_2020/atlas/templates/infant-neo-seg-gm.nii.gz",
       "ATLASDIR/UNC_infant_atlas_2020/atlas/templates/infant-neo-seg-wm.nii.gz"]
  ∧ [(neoSeg "T2w.nii.gz" "out" false).warpedCsf,
     (neoSeg "T2w.nii.gz" "out" false).warpedGm,
     (neoSeg "T2w.nii.gz" "out" false).warpedWm] =
      ["out/template-to-native_space-native_xfm-nonlinear_tissue-csf.nii.gz",
       "out/template-to-native_space-native_xfm-nonlinear_tissue-gm.nii.gz",
       "out/template-to-native_space-native_xfm-nonlinear_tissue-wm.nii.gz"]
  ∧ strListInter (neoSeg "T2w.nii.gz" "out" false).fastPriors
      [(neoSeg "T2w.nii.gz" "out" false).warpedCsf,
       (neoSeg "T2w.nii.gz" "out" false).warpedGm,
       (neoSeg "T2w.nii.gz" "out" false).warpedWm] = [] := by decide

/-- Counterexample for C6: in a state where the bundle directory is absent
but the archive extracts, the loader completes the extraction and then
returns no paths (the recursive call's result is discarded and the source
falls off the end, returning None), so it does not yield the five template
paths on first use. -/
theorem atlas_loader_claim_counterexample :
    getUNCAtlas { dirPresent := false, archivePresent := true } =
      .ok ({ dirPresent := true, archivePresent := true }, none)
  ∧ loaderYieldsPaths { dirPresent := false, archivePresent := true } = false := by
  exact ⟨rfl, rfl⟩

/-- Claim C6 as amended: when the bundle directory is absent but the
archive is present, the loader extracts and then returns None rather than
the five template paths (a second call, with the directory now present,
would return them); when neither directory nor archive is present the
extraction subprocess fails fatally; and in the neonatal pipeline the atlas
load happens only after the bias-correction and brain-extraction steps have
already invoked external tools. -/
theorem atlas_loader_amended :
    getUNCAtlas { dirPresent := false, archivePresent := true } =
      .ok ({ dirPresent := true, archivePresent := true }, none)
  ∧ (∀ b : Bool, getUNCAtlas { dirPresent := true, archivePresent := b } =
      .ok ({ dirPresent := true, archivePresent := b }, some uncPaths))
  ∧ exceptOk (getUNCAtlas { dirPresent := false, archivePresent := false }) = false
  ∧ (∀ nb : Bool, firstPos "bet" (neoSegEvents nb) <
       firstPos "atlas_load" (neoSegEvents nb)) := by
  refine ⟨rfl, ?_, rfl, ?_⟩
  · intro b; rfl
  · intro nb; cases nb <;> decide
